import Mathlib

/-!
Shallow embedding of the graph-construction core of fmriprep-rodents.

Source files embedded here:
  src/fmriprep/patch/workflows/anatomical.py  (init_anat_preproc_wf, _is_skull_stripped, _pop)
  src/fprodents/tests/rs_fmri.py              (init_anat_norm_wf, _pop)

Modelling conventions:
  Image intensities are modelled as rationals (the source loads float32 data).
  Python dictionaries are modelled as association lists; dict.pop is lookup
  followed by removal of the first matching entry, and a missing key yields a
  KeyError value.
  The nipype workflow object is modelled as a record of graph nodes,
  connections, declared iterables and directly assigned node input values;
  workflow.connect registers both endpoint nodes (in order of first
  appearance) and appends the connection tuples.  A Python exception is
  modelled as an Except.error value that also carries the state of the
  in-progress workflow at the moment of the raise, so that statements about
  what had already been added to the graph can be made.
  Free-text description strings, logging and version lookups of the source
  are elided: no claim mentions them.
-/

/-! ## Python values and the helper _pop -/

/-- Untyped Python value, as far as the helper _pop discriminates it. -/
inductive PyObj where
  | pylist (l : List PyObj)
  | pytuple (l : List PyObj)
  | pystr (s : String)
  | pyint (n : Int)

/-- Python exception raised by indexing. -/
inductive PyErr where
  | indexError
deriving DecidableEq, Repr

/-- Test used by the isinstance check in _pop. -/
def isListOrTuple (v : PyObj) : Bool :=
  match v with
  | PyObj.pylist _ => true
  | PyObj.pytuple _ => true
  | _ => false

/-- Embedding of _pop (anatomical.py lines 412 to 415 and rs_fmri.py lines 84
to 87, identical definitions): a list or tuple is replaced by its element at
index 0 (IndexError when empty), anything else is returned unchanged. -/
def _pop (inlist : PyObj) : Except PyErr PyObj :=
  match inlist with
  | PyObj.pylist l =>
      match l with
      | [] => Except.error PyErr.indexError
      | x :: _ => Except.ok x
  | PyObj.pytuple l =>
      match l with
      | [] => Except.error PyErr.indexError
      | x :: _ => Except.ok x
  | v => Except.ok v

/-! ## Volumes and the skull-strip probe classifier -/

/-- A 3-D image volume: dimensions and a voxel intensity function.  Positions
outside the dimension bounds are never read by the embedded code. -/
structure Volume where
  nx : Nat
  ny : Nat
  nz : Nat
  data : Nat → Nat → Nat → ℚ

/-- Sum of absolute intensities over the slice with first index fixed to i,
that is data[i, :, :].sum() on the absolute-value array. -/
def sliceSumX (v : Volume) (i : Nat) : ℚ :=
  ((List.range v.ny).map (fun j => ((List.range v.nz).map (fun k => |v.data i j k|)).sum)).sum

/-- Sum of absolute intensities over the slice with second index fixed to j,
that is data[:, j, :].sum() on the absolute-value array. -/
def sliceSumY (v : Volume) (j : Nat) : ℚ :=
  ((List.range v.nx).map (fun i => ((List.range v.nz).map (fun k => |v.data i j k|)).sum)).sum

/-- Sum of absolute intensities over the slice with third index fixed to k,
that is data[:, :, k].sum() on the absolute-value array. -/
def sliceSumZ (v : Volume) (k : Nat) : ℚ :=
  ((List.range v.nx).map (fun i => ((List.range v.ny).map (fun j => |v.data i j k|)).sum)).sum

/-- Embedding of the sidevals expression of _check_img (anatomical.py lines
280 to 283): the sum of the absolute intensities over the six outer faces of
the volume, faces summed independently (index -1 in numpy is the last index). -/
def sidevals (v : Volume) : ℚ :=
  sliceSumX v 0 + sliceSumX v (v.nx - 1) +
  sliceSumY v 0 + sliceSumY v (v.ny - 1) +
  sliceSumZ v 0 + sliceSumZ v (v.nz - 1)

/-- Embedding of _check_img (anatomical.py lines 279 to 284): an image is
classified skull-stripped when its face sum is strictly below 10. -/
def _check_img (v : Volume) : Bool :=
  sidevals v < 10

/-- Embedding of _is_skull_stripped (anatomical.py lines 277 to 286): a batch
is classified skull-stripped when every image in it is. -/
def _is_skull_stripped (imgs : List Volume) : Bool :=
  imgs.all _check_img

/-- All six outer faces of the volume carry intensity zero. -/
def facesZero (v : Volume) : Prop :=
  (∀ j k, j < v.ny → k < v.nz → v.data 0 j k = 0 ∧ v.data (v.nx - 1) j k = 0) ∧
  (∀ i k, i < v.nx → k < v.nz → v.data i 0 k = 0 ∧ v.data i (v.ny - 1) k = 0) ∧
  (∀ i j, i < v.nx → j < v.ny → v.data i j 0 = 0 ∧ v.data i j (v.nz - 1) = 0)

/-! ## Helper lemmas about slice sums -/

lemma list_sum_map_zero {α : Type} (l : List α) (f : α → ℚ)
    (h : ∀ x ∈ l, f x = 0) : (l.map f).sum = 0 := by
  induction l with
  | nil => simp
  | cons a t ih =>
      simp only [List.map_cons, List.sum_cons]
      rw [h a (List.mem_cons_self a t), ih (fun x hx => h x (List.mem_cons_of_mem a hx))]
      simp

lemma sliceSumX_zero (v : Volume) (i : Nat)
    (h : ∀ j k, j < v.ny → k < v.nz → v.data i j k = 0) : sliceSumX v i = 0 := by
  unfold sliceSumX
  refine list_sum_map_zero _ _ (fun j hj => ?_)
  refine list_sum_map_zero _ _ (fun k hk => ?_)
  rw [h j k (List.mem_range.mp hj) (List.mem_range.mp hk)]
  simp

lemma sliceSumY_zero (v : Volume) (j : Nat)
    (h : ∀ i k, i < v.nx → k < v.nz → v.data i j k = 0) : sliceSumY v j = 0 := by
  unfold sliceSumY
  refine list_sum_map_zero _ _ (fun i hi => ?_)
  refine list_sum_map_zero _ _ (fun k hk => ?_)
  rw [h i k (List.mem_range.mp hi) (List.mem_range.mp hk)]
  simp

lemma sliceSumZ_zero (v : Volume) (k : Nat)
    (h : ∀ i j, i < v.nx → j < v.ny → v.data i j k = 0) : sliceSumZ v k = 0 := by
  unfold sliceSumZ
  refine list_sum_map_zero _ _ (fun i hi => ?_)
  refine list_sum_map_zero _ _ (fun j hj => ?_)
  rw [h i j (List.mem_range.mp hi) (List.mem_range.mp hj)]
  simp

lemma sidevals_of_facesZero (v : Volume) (h : facesZero v) : sidevals v = 0 := by
  obtain ⟨hx, hy, hz⟩ := h
  unfold sidevals
  rw [sliceSumX_zero v 0 (fun j k hj hk => (hx j k hj hk).1),
      sliceSumX_zero v (v.nx - 1) (fun j k hj hk => (hx j k hj hk).2),
      sliceSumY_zero v 0 (fun i k hi hk => (hy i k hi hk).1),
      sliceSumY_zero v (v.ny - 1) (fun i k hi hk => (hy i k hi hk).2),
      sliceSumZ_zero v 0 (fun i j hi hj => (hz i j hi hj).1),
      sliceSumZ_zero v (v.nz - 1) (fun i j hi hj => (hz i j hi hj).2)]
  norm_num

/-! ## Concrete volumes used in example statements -/

/-- Synthetic 3x3x3 volume: zero on all six faces, intensity 5 at the center. -/
def vCenter : Volume :=
  ⟨3, 3, 3, fun i j k => if i = 1 ∧ j = 1 ∧ k = 1 then 5 else 0⟩

/-- Uniform 2x2x2 volume of intensity 1: every voxel lies on each pair of
faces, so the face sum is 24, at least 10. -/
def vOnes2 : Volume :=
  ⟨2, 2, 2, fun _ _ _ => 1⟩

/-! ## Claim C1 -/

/-- C1: the probe classifier classifies a single image as skull-stripped iff
the sum of absolute intensities over the six outer faces of its volume is
strictly below 10, and a batch iff every image in it is classified
skull-stripped; a volume with all six faces zero classifies skull-stripped and
a volume whose faces sum to at least 10 does not.  Dimension positivity
reflects that numpy end-slice indexing requires nonempty axes. -/
theorem C1_probe_classifier :
    (∀ v : Volume, 0 < v.nx → 0 < v.ny → 0 < v.nz →
        (_check_img v = true ↔ sidevals v < 10)) ∧
    (∀ imgs : List Volume, (_is_skull_stripped imgs = true ↔ ∀ v ∈ imgs, _check_img v = true)) ∧
    (∀ v : Volume, 0 < v.nx → 0 < v.ny → 0 < v.nz →
        facesZero v → _check_img v = true) ∧
    (∀ v : Volume, 10 ≤ sidevals v → _check_img v = false) := by
  refine ⟨fun v _ _ _ => ?_, fun imgs => ?_, fun v _ _ _ hf => ?_, fun v h => ?_⟩
  · simp [_check_img]
  · simp [_is_skull_stripped, List.all_eq_true]
  · simp [_check_img, sidevals_of_facesZero v hf]
  · simp [_check_img, not_lt.mpr h]

/-- Witness for C1 at concrete inputs: the centered synthetic volume (faces
zero, nonzero interior) classifies skull-stripped, the uniform volume with
face sum 24 does not, and the singleton batch follows its only image. -/
theorem C1_probe_classifier_witness :
    _check_img vCenter = true ∧ _check_img vOnes2 = false ∧
    _is_skull_stripped [vCenter] = true := by
  refine ⟨?_, ?_, ?_⟩
  · exact C1_probe_classifier.2.2.1 vCenter (by norm_num [vCenter]) (by norm_num [vCenter])
      (by norm_num [vCenter])
      ⟨fun j k _ _ => ⟨by simp [vCenter], by simp [vCenter]⟩,
       fun i k _ _ => ⟨by simp [vCenter], by simp [vCenter]⟩,
       fun i j _ _ => ⟨by simp [vCenter], by simp [vCenter]⟩⟩
  · refine C1_probe_classifier.2.2.2 vOnes2 ?_
    norm_num [sidevals, sliceSumX, sliceSumY, sliceSumZ, vOnes2, List.range_succ]
  · refine (C1_probe_classifier.2.1 [vCenter]).mpr ?_
    intro v hv
    rw [List.mem_singleton] at hv
    subst hv
    exact C1_probe_classifier.2.2.1 vCenter (by norm_num [vCenter]) (by norm_num [vCenter])
      (by norm_num [vCenter])
      ⟨fun j k _ _ => ⟨by simp [vCenter], by simp [vCenter]⟩,
       fun i k _ _ => ⟨by simp [vCenter], by simp [vCenter]⟩,
       fun i j _ _ => ⟨by simp [vCenter], by simp [vCenter]⟩⟩

/-! ## Claim C10 -/

/-- C10: _pop returns any non list, non tuple input unchanged, returns the
first element of a non-empty list or tuple, and fails with an IndexError on an
empty list or tuple. -/
theorem C10_pop_behavior :
    (∀ v : PyObj, isListOrTuple v = false → _pop v = Except.ok v) ∧
    (∀ (x : PyObj) (xs : List PyObj), _pop (PyObj.pylist (x :: xs)) = Except.ok x) ∧
    (∀ (x : PyObj) (xs : List PyObj), _pop (PyObj.pytuple (x :: xs)) = Except.ok x) ∧
    _pop (PyObj.pylist []) = Except.error PyErr.indexError ∧
    _pop (PyObj.pytuple []) = Except.error PyErr.indexError := by
  refine ⟨fun v hv => ?_, fun x xs => rfl, fun x xs => rfl, rfl, rfl⟩
  cases v with
  | pylist l => simp [isListOrTuple] at hv
  | pytuple l => simp [isListOrTuple] at hv
  | pystr s => rfl
  | pyint n => rfl

/-- Witness for C10 at concrete inputs: a plain string passes through, a
non-empty list yields its head. -/
theorem C10_pop_behavior_witness :
    _pop (PyObj.pystr "t2w.nii.gz") = Except.ok (PyObj.pystr "t2w.nii.gz") ∧
    _pop (PyObj.pylist [PyObj.pyint 7, PyObj.pyint 8]) = Except.ok (PyObj.pyint 7) :=
  ⟨C10_pop_behavior.1 (PyObj.pystr "t2w.nii.gz") (by decide),
   C10_pop_behavior.2.1 (PyObj.pyint 7) [PyObj.pyint 8]⟩

/-! ## Workflow graph model -/

/-- Heterogeneous value stored in a derivative mapping or bound to a node
input: either a single path-like string or a list of strings (the template
list). -/
inductive DVal where
  | str (s : String)
  | strList (l : List String)
deriving DecidableEq, Repr

/-- Directed connection from an output port of a source node to an input port
of a destination node; xf names the optional Python transform function
attached to the source port (for example _pop or fix_multi_source_name). -/
structure Conn where
  src : String
  srcPort : String
  xf : Option String
  dst : String
  dstPort : String
deriving DecidableEq, Repr

/-- State of a nipype workflow under construction.  nodes and conns are the
graph content; iterables records iterable declarations placed on nodes
(node name, field, values); outputInputs records input values assigned
directly on the outputnode; reportsSourceFile records the source_file input
assigned directly on the reports sub-workflow. -/
structure Workflow where
  nodes : List String
  conns : List Conn
  iterables : List (String × String × DVal)
  outputInputs : List (String × DVal)
  reportsSourceFile : Option DVal
deriving DecidableEq, Repr

/-- Workflow with no nodes, connections or assigned inputs. -/
def emptyWorkflow : Workflow :=
  ⟨[], [], [], [], none⟩

/-- Register a node in the graph unless it is already present. -/
def addN (w : Workflow) (n : String) : Workflow :=
  if w.nodes.contains n then w else { w with nodes := w.nodes ++ [n] }

/-- Embedding of workflow.connect for one source and destination pair: both
endpoint nodes are registered on first appearance and the port pairs are
appended as connections.  Each port entry is (source port, optional transform
name, destination port). -/
def connect (w : Workflow) (src : String) (dst : String)
    (ports : List (String × Option String × String)) : Workflow :=
  let w1 := addN (addN w src) dst
  { w1 with conns := w1.conns ++ ports.map (fun p => ⟨src, p.1, p.2.1, dst, p.2.2⟩) }

/-- Exception value raised during graph construction. -/
inductive BuildErr where
  | keyError (field : String)
  | notImplemented
  | nameError (ident : String)
deriving DecidableEq, Repr

/-- Outcome of running a workflow-builder function.  result carries either
the returned workflow (some w; Except.ok none stands for the implicit Python
None fall-through return) or the raised exception together with the state of
the in-progress workflow at the moment of the raise.  probeRan records
whether the skull-strip probe classifier was invoked.  derivsAfter is the
final state of the caller-supplied existing_derivatives mapping, so that
mutation of that argument is observable. -/
structure BuildOut where
  result : Except (BuildErr × Workflow) (Option Workflow)
  probeRan : Bool
  derivsAfter : Option (List (String × DVal))

/-- Skull-strip mode configuration value. -/
inductive SkullStripMode where
  | force
  | skip
  | auto
deriving DecidableEq, Repr

/-- Value of the skull_strip_mode variable after the probe step of the
source: the auto branch rebinds the variable to the boolean probe result,
otherwise the original string remains. -/
inductive SSResolved where
  | force
  | skip
  | probed (stripped : Bool)
deriving DecidableEq, Repr

/-- A T2-weighted input image: its path and the volume the probe would load
from that path. -/
structure Image where
  name : String
  vol : Volume

/-- Configuration surface of init_anat_preproc_wf (anatomical.py lines 25 to
41).  spaces is modelled by the list of template identifiers it resolves to. -/
structure AnatConfig where
  bids_root : String
  hires : Bool
  longitudinal : Bool
  t2w : List Image
  omp_nthreads : Nat
  output_dir : String
  skull_strip_mode : SkullStripMode
  skull_strip_template : String
  templates : List String
  debug : Bool
  existing_derivatives : Option (List (String × DVal))
  freesurfer : Bool
  skull_strip_fixed_seed : Bool

/-- Modelled from the spec: fix_multi_source_name lives in
fmriprep/patch/utils.py, which is not under src/; the spec only requires that
the reporting collaborator receives a source-file identity computed from the
given file list, so it is modelled as an unspecified fixed function of that
list (here: the first entry). -/
def fix_multi_source_name (files : List DVal) : DVal :=
  files.headD (DVal.str "")

/-- Workflow state after the reportlets connection (anatomical.py lines 188
to 193): connecting outputnode to anat_reports_wf registers both nodes in the
graph before the derivative-cache check and the skull-strip handling run. -/
def reportletsWf : Workflow :=
  connect emptyWorkflow "outputnode" "anat_reports_wf"
    [("t2w_preproc", none, "inputnode.t1w_preproc"),
     ("t2w_mask", none, "inputnode.t1w_mask"),
     ("t2w_dseg", none, "inputnode.t1w_dseg")]

/-- Embedding of the cached branch of init_anat_preproc_wf (anatomical.py
lines 195 to 232).  The template entry is popped from the supplied mapping
(KeyError when absent), an iterable over the popped template list is declared
on templatesource, every remaining entry is assigned directly onto the
outputnode, the reports source file is computed from the t2w_preproc entry
(KeyError when absent), and only identity-style nodes are wired. -/
def cachedPathResult (w1 : Workflow) (d : List (String × DVal)) :
    Except (BuildErr × Workflow) (Option Workflow) :=
  match d.lookup "template" with
  | none => Except.error (BuildErr.keyError "template", w1)
  | some templates =>
      let d2 := d.eraseP (fun p => p.1 == "template")
      let w2 := { w1 with iterables := w1.iterables ++ [("templatesource", "template", templates)] }
      let w3 := { w2 with outputInputs := w2.outputInputs ++ [("template", templates)] }
      let w4 := { w3 with outputInputs := w3.outputInputs ++ d2 }
      match d2.lookup "t2w_preproc" with
      | none => Except.error (BuildErr.keyError "t2w_preproc", w4)
      | some pv =>
          let w5 := { w4 with reportsSourceFile := some (fix_multi_source_name [pv]) }
          let w6 := connect w5 "inputnode" "outputnode"
            [("subjects_dir", none, "subjects_dir"), ("subject_id", none, "subject_id")]
          let w7 := connect w6 "inputnode" "anat_reports_wf"
            [("subjects_dir", none, "inputnode.subjects_dir"),
             ("subject_id", none, "inputnode.subject_id")]
          let w8 := connect w7 "templatesource" "stdselect" [("template", none, "key")]
          let w9 := connect w8 "outputnode" "stdselect"
            [("std_preproc", none, "std_preproc"), ("std_mask", none, "std_mask")]
          let w10 := connect w9 "stdselect" "anat_reports_wf"
            [("key", none, "inputnode.template"),
             ("std_preproc", none, "inputnode.std_t1w"),
             ("std_mask", none, "inputnode.std_mask")]
          Except.ok (some w10)

/-- Final state of the supplied derivative mapping after the cached branch:
dict.pop removes the template entry when it is present and leaves the mapping
untouched when the pop raises KeyError. -/
def popResidual (d : List (String × DVal)) : List (String × DVal) :=
  if (d.lookup "template").isSome then d.eraseP (fun p => p.1 == "template") else d

/-- Build outcome of the cached branch: the probe never runs on this branch,
and the supplied mapping ends up with its template entry popped. -/
def cachedPath (w1 : Workflow) (d : List (String × DVal)) : BuildOut :=
  { result := cachedPathResult w1 d,
    probeRan := false,
    derivsAfter := some (popResidual d) }

/-- Embedding of the non-cached branch of init_anat_preproc_wf (anatomical.py
lines 234 to 409).  The probe runs only in auto mode and rebinds the mode
variable to its boolean result; the condition skull_strip_mode in (True,
"skip") then raises NotImplementedError, with the reportlets connection
already in the graph.  Otherwise the full compute graph is wired; the final
branch on freesurfer mirrors the source, where the guard is always taken
because the argument was overwritten with False, and the fall-through would
return Python None. -/
def computePathResult (cfg : AnatConfig) (freesurfer : Bool) (w1 : Workflow) :
    Except (BuildErr × Workflow) (Option Workflow) :=
  let resolved : SSResolved :=
    match cfg.skull_strip_mode with
    | SkullStripMode.force => SSResolved.force
    | SkullStripMode.skip => SSResolved.skip
    | SkullStripMode.auto => SSResolved.probed (_is_skull_stripped (cfg.t2w.map Image.vol))
  if resolved = SSResolved.probed true ∨ resolved = SSResolved.skip then
    Except.error (BuildErr.notImplemented, w1)
  else
    let w2 := connect w1 "inputnode" "anat_template_wf" [("t2w", none, "inputnode.t1w")]
    let w3 := connect w2 "anat_template_wf" "anat_validate"
      [("outputnode.t1w_ref", none, "in_file")]
    let w4 := connect w3 "anat_validate" "brain_extraction_wf"
      [("out_file", none, "inputnode.in_files")]
    let w5 := connect w4 "brain_extraction_wf" "outputnode"
      [("outputnode.out_corrected", some "_pop", "t2w_preproc")]
    let w6 := connect w5 "anat_template_wf" "outputnode"
      [("outputnode.t1w_realign_xfm", none, "t2w_ref_xfms")]
    let w7 := connect w6 "buffernode" "outputnode"
      [("t2w_brain", none, "t2w_brain"), ("t2w_mask", none, "t2w_mask")]
    let w8 := connect w7 "inputnode" "anat_norm_wf"
      [("t2w", some "fix_multi_source_name", "inputnode.orig_t1w"),
       ("roi", none, "inputnode.lesion_mask")]
    let w9 := connect w8 "brain_extraction_wf" "anat_norm_wf"
      [("outputnode.out_corrected", some "_pop", "inputnode.moving_image")]
    let w10 := connect w9 "buffernode" "anat_norm_wf"
      [("t2w_mask", none, "inputnode.moving_mask")]
    let w11 := connect w10 "anat_norm_wf" "outputnode"
      [("poutputnode.standardized", none, "std_preproc"),
       ("poutputnode.std_mask", none, "std_mask"),
       ("poutputnode.std_dseg", none, "std_dseg"),
       ("poutputnode.std_tpms", none, "std_tpms"),
       ("outputnode.template", none, "template"),
       ("outputnode.anat2std_xfm", none, "anat2std_xfm"),
       ("outputnode.std2anat_xfm", none, "std2anat_xfm")]
    let w12 := connect w11 "lut_t1w_dseg" "anat_norm_wf"
      [("out", none, "inputnode.moving_segmentation")]
    let w13 := connect w12 "lut_t1w_dseg" "outputnode" [("out", none, "t1w_dseg")]
    let w14 := connect w13 "inputnode" "anat_reports_wf"
      [("t2w", some "fix_multi_source_name", "inputnode.source_file")]
    let w15 := connect w14 "outputnode" "anat_reports_wf"
      [("std_preproc", none, "inputnode.std_t1w"), ("std_mask", none, "inputnode.std_mask")]
    let w16 := connect w15 "anat_template_wf" "anat_reports_wf"
      [("outputnode.out_report", none, "inputnode.t1w_conform_report")]
    let w17 := connect w16 "anat_norm_wf" "anat_reports_wf"
      [("poutputnode.template", none, "inputnode.template")]
    let w18 := connect w17 "anat_template_wf" "anat_derivatives_wf"
      [("outputnode.t1w_valid_list", none, "inputnode.source_files")]
    let w19 := connect w18 "anat_norm_wf" "anat_derivatives_wf"
      [("poutputnode.template", none, "inputnode.template"),
       ("poutputnode.anat2std_xfm", none, "inputnode.anat2std_xfm"),
       ("poutputnode.std2anat_xfm", none, "inputnode.std2anat_xfm")]
    let w20 := connect w19 "outputnode" "anat_derivatives_wf"
      [("std_preproc", none, "inputnode.std_t1w"),
       ("t2w_ref_xfms", none, "inputnode.t1w_ref_xfms"),
       ("t2w_preproc", none, "inputnode.t1w_preproc"),
       ("t2w_mask", none, "inputnode.t1w_mask"),
       ("t2w_dseg", none, "inputnode.t1w_dseg"),
       ("t2w_tpms", none, "inputnode.t1w_tpms"),
       ("std_mask", none, "inputnode.std_mask"),
       ("std_dseg", none, "inputnode.std_dseg"),
       ("std_tpms", none, "inputnode.std_tpms")]
    if freesurfer then
      Except.ok none
    else
      let wA := connect w20 "brain_extraction_wf" "buffernode"
        [("outputnode.out_brain", some "_pop", "t2w_brain"),
         ("outputnode.out_mask", none, "t2w_mask")]
      let wB := connect wA "buffernode" "t1w_dseg" [("t2w_brain", none, "in_files")]
      let wC := connect wB "t1w_dseg" "lut_t1w_dseg" [("partial_volume_map", none, "in_dseg")]
      let wD := connect wC "t1w_dseg" "fast2bids" [("partial_volume_files", none, "inlist")]
      let wE := connect wD "fast2bids" "anat_norm_wf" [("out", none, "inputnode.moving_tpms")]
      let wF := connect wE "fast2bids" "outputnode" [("out", none, "t2w_tpms")]
      Except.ok (some wF)

/-- Build outcome of the non-cached branch: the probe runs exactly when the
configured mode is auto, and no derivative mapping exists on this branch. -/
def computePath (cfg : AnatConfig) (freesurfer : Bool) (w1 : Workflow) : BuildOut :=
  { result := computePathResult cfg freesurfer w1,
    probeRan :=
      match cfg.skull_strip_mode with
      | SkullStripMode.auto => true
      | _ => false,
    derivsAfter := none }

/-- Embedding of init_anat_preproc_wf (anatomical.py lines 25 to 409).  The
first statement of the body overwrites the freesurfer argument with False
(line 164); the reportlets connection runs unconditionally; the supplied
existing_derivatives mapping then selects the cached branch, otherwise the
compute branch runs. -/
def init_anat_preproc_wf (cfg : AnatConfig) : BuildOut :=
  let freesurfer := false
  let w1 := reportletsWf
  match cfg.existing_derivatives with
  | some d => cachedPath w1 d
  | none => computePath cfg freesurfer w1

/-- Outcome of init_anat_norm_wf of rs_fmri.py: node objects created before
the failing connect call, the iterable declared on the inputnode object, and
the raised error with the graph state at that moment. -/
structure NormOut where
  nodesCreated : List String
  inputnodeIterables : List (String × List String)
  result : Except (BuildErr × Workflow) Workflow

/-- Embedding of init_anat_norm_wf (rs_fmri.py lines 91 to 263).  The body
creates the node objects and declares the template iterable on inputnode, but
the workflow.connect argument list references the name split_desc, which is
defined nowhere in the file, so evaluation raises NameError before any
connection or node registration reaches the graph, for every template list. -/
def init_anat_norm_wf (debug : Bool) (omp_nthreads : Nat) (templates : List String) : NormOut :=
  let _ntpls := templates.length
  let w := emptyWorkflow
  { nodesCreated := ["inputnode", "poutputnode", "trunc_mov", "registration",
                     "tpl_moving", "std_mask"],
    inputnodeIterables := [("template", templates)],
    result := Except.error (BuildErr.nameError "split_desc", w) }

/-! ## Projections used to state claims about build outcomes -/

/-- Returned workflow of a build, when the build neither raised nor fell
through to a Python None return. -/
def builtWorkflow (b : BuildOut) : Option Workflow :=
  match b.result with
  | Except.ok (some w) => some w
  | _ => none

/-- True when the build returned a workflow. -/
def buildSucceeded (b : BuildOut) : Bool :=
  match b.result with
  | Except.ok (some _) => true
  | _ => false

/-- Exception raised by a build, when one was raised. -/
def raisedErr (b : BuildOut) : Option BuildErr :=
  match b.result with
  | Except.error (e, _) => some e
  | _ => none

/-- Nodes already registered in the graph at the moment a build raised. -/
def raiseNodes (b : BuildOut) : Option (List String) :=
  match b.result with
  | Except.error (_, w) => some w.nodes
  | _ => none

/-- Node names wrapping external Processing Units (compute steps: template
averaging, validation, brain extraction, normalization, segmentation and its
relabelling); identity, selection, reporting and writer nodes are not compute
steps. -/
def isComputeNode (n : String) : Bool :=
  ["anat_template_wf", "anat_validate", "brain_extraction_wf", "anat_norm_wf",
   "lut_t1w_dseg", "t1w_dseg", "fast2bids"].contains n

/-! ## IterableSpec and the join synchronizer -/

/-- Ordered key sequence attached to an iterable input (the template list of
an expansion root). -/
structure IterableSpec where
  keys : List String

/-- Modelled from the spec: the JoinSynchronizer semantics (the nipype
JoinNode execution machinery behind the joinsource declaration of rs_fmri.py
lines 252 to 260) is not part of src/; section 4.3 of the spec requires the
join to gather one output per branch and order the collection by the original
key order of the IterableSpec, never by completion order, failing on a branch
count mismatch or a missing branch output.  results lists the per-branch
outputs keyed by branch key, in completion order. -/
def lookupAll {α : Type} (results : List (String × α)) : List String → Option (List α)
  | [] => some []
  | k :: ks =>
      match List.lookup k results, lookupAll results ks with
      | some v, some vs => some (v :: vs)
      | _, _ => none

/-- Join contract of section 4.3 of the spec: check the branch count against
the key count, then collect the branch output for each key in original key
order; any missing branch output yields the mismatch failure (none). -/
def joinSynchronize {α : Type} (spec : IterableSpec) (results : List (String × α)) :
    Option (List α) :=
  if results.length = spec.keys.length then
    lookupAll results spec.keys
  else none

lemma lookup_eq_of_entries {α : Type} (k : String) (v : α) :
    ∀ l : List (String × α), (k, v) ∈ l → (∀ p ∈ l, p.1 = k → p.2 = v) →
      List.lookup k l = some v := by
  intro l
  induction l with
  | nil => intro h _; cases h
  | cons a t ih =>
      intro hmem huniq
      obtain ⟨a1, a2⟩ := a
      by_cases hk : a1 = k
      · have hv : a2 = v := huniq (a1, a2) (List.mem_cons_self _ _) hk
        subst hk
        subst hv
        simp [List.lookup]
      · have hmem2 : (k, v) ∈ t := by
          rcases List.mem_cons.mp hmem with h1 | h2
          · exact absurd (congrArg Prod.fst h1).symm hk
          · exact h2
        have ht := ih hmem2 (fun p hp hpk => huniq p (List.mem_cons_of_mem _ hp) hpk)
        have hne : (k == a1) = false := by
          simp only [beq_eq_false_iff_ne, ne_eq]
          exact fun h => hk h.symm
        simp [List.lookup, hne, ht]

lemma lookupAll_map {α : Type} (f : String → α) (results : List (String × α)) :
    ∀ keys : List String, (∀ k ∈ keys, List.lookup k results = some (f k)) →
      lookupAll results keys = some (keys.map f) := by
  intro keys
  induction keys with
  | nil => intro _; rfl
  | cons k t ih =>
      intro h
      have hk := h k (List.mem_cons_self _ _)
      have ht := ih (fun x hx => h x (List.mem_cons_of_mem _ hx))
      simp [lookupAll, hk, ht]

/-! ## Concrete fixtures -/

/-- All-zero 3x3x3 volume: the probe classifies it skull-stripped. -/
def vZero3 : Volume :=
  ⟨3, 3, 3, fun _ _ _ => 0⟩

/-- A single T2w input image whose volume is all zero. -/
def imgZero : Image :=
  ⟨"sub-01_T2w.nii.gz", vZero3⟩

/-- Base configuration: one T2w image, forced skull stripping, one template,
no prior derivatives. -/
def cfgBase : AnatConfig :=
  ⟨"/data", false, false, [imgZero], 1, "/out", SkullStripMode.force, "Fischer344",
   ["RatT2w"], false, none, false, false⟩

/-- Complete derivative mapping for the requested fields. -/
def derivsFull : List (String × DVal) :=
  [("template", DVal.strList ["RatT2w"]),
   ("t2w_preproc", DVal.str "sub-01_desc-preproc_T2w.nii.gz"),
   ("std_preproc", DVal.str "sub-01_space-RatT2w_T2w.nii.gz"),
   ("std_mask", DVal.str "sub-01_space-RatT2w_mask.nii.gz")]

/-- Derivative mapping with template and t2w_preproc present but std_preproc
missing. -/
def derivsNoStd : List (String × DVal) :=
  [("template", DVal.strList ["RatT2w"]),
   ("t2w_preproc", DVal.str "sub-01_desc-preproc_T2w.nii.gz"),
   ("std_mask", DVal.str "sub-01_space-RatT2w_mask.nii.gz")]

/-- Derivative mapping whose template key sequence is empty. -/
def derivsEmptyTpl : List (String × DVal) :=
  [("template", DVal.strList []),
   ("t2w_preproc", DVal.str "sub-01_desc-preproc_T2w.nii.gz")]

lemma check_img_vZero3 : _check_img vZero3 = true := by
  norm_num [_check_img, sidevals, sliceSumX, sliceSumY, sliceSumZ, vZero3, List.range_succ]

lemma probe_single_zero : _is_skull_stripped [vZero3] = true := by
  simp [_is_skull_stripped, check_img_vZero3]

lemma reportletsWf_nodes : reportletsWf.nodes = ["outputnode", "anat_reports_wf"] := rfl

/-! ## Claim C5 -/

/-- C5: the joined collection produced by the join synchronizer has exactly
one element per key of the IterableSpec, its i-th element is the output of the
branch keyed by the i-th key, and this holds for every permutation of branch
completion order, so the join order is a pure function of the IterableSpec;
the key sequence is exactly the iterable declared on the inputnode of the
normalization workflow. -/
theorem C5_join_order {α : Type} (spec : IterableSpec) (f : String → α)
    (results : List (String × α)) (hnd : spec.keys.Nodup)
    (hperm : results.Perm (spec.keys.map (fun k => (k, f k)))) :
    joinSynchronize spec results = some (spec.keys.map f) ∧
    (spec.keys.map f).length = spec.keys.length ∧
    (∀ i : Nat, (spec.keys.map f).get? i = Option.map f (spec.keys.get? i)) ∧
    (∀ (debug : Bool) (omp : Nat),
      (init_anat_norm_wf debug omp spec.keys).inputnodeIterables = [("template", spec.keys)]) := by
  have hlen : results.length = spec.keys.length := by
    have := hperm.length_eq
    simpa using this
  have hlk : ∀ k ∈ spec.keys, List.lookup k results = some (f k) := by
    intro k hk
    refine lookup_eq_of_entries k (f k) results ?_ ?_
    · exact hperm.mem_iff.mpr (List.mem_map.mpr ⟨k, hk, rfl⟩)
    · intro p hp hpk
      have hp2 := hperm.mem_iff.mp hp
      obtain ⟨k2, _, heq⟩ := List.mem_map.mp hp2
      have h1 : p.1 = k2 := by rw [← heq]
      have h2 : p.2 = f k2 := by rw [← heq]
      rw [h2, ← h1, hpk]
  refine ⟨?_, by simp, fun i => by simp [List.get?_map], fun _ _ => rfl⟩
  unfold joinSynchronize
  rw [if_pos hlen]
  exact lookupAll_map f results spec.keys hlk

/-- Two-template IterableSpec used as the concrete join example. -/
def specTwoTpl : IterableSpec :=
  ⟨["RatT2w", "Fischer344"]⟩

/-- Witness for C5 at a concrete input: branches complete in reversed order,
yet the joined collection is ordered by the original key order. -/
theorem C5_join_order_witness :
    joinSynchronize specTwoTpl
        [("Fischer344", "std_Fischer344"), ("RatT2w", "std_RatT2w")] =
      some ["std_RatT2w", "std_Fischer344"] :=
  (C5_join_order specTwoTpl (fun k => "std_" ++ k)
    [("Fischer344", "std_Fischer344"), ("RatT2w", "std_RatT2w")]
    (by decide)
    (List.Perm.swap ("RatT2w", "std_RatT2w") ("Fischer344", "std_Fischer344") [])).1

/-! ## Helper lemmas on the two build branches -/

lemma cachedPath_probeRan (w : Workflow) (d : List (String × DVal)) :
    (cachedPath w d).probeRan = false := rfl

lemma cachedPath_derivsAfter (w : Workflow) (d : List (String × DVal)) :
    (cachedPath w d).derivsAfter = some (popResidual d) := rfl

lemma computePath_probeRan (cfg : AnatConfig) (fs : Bool) (w : Workflow) :
    (computePath cfg fs w).probeRan =
      (match cfg.skull_strip_mode with
       | SkullStripMode.auto => true
       | _ => false) := rfl

lemma computePath_derivsAfter (cfg : AnatConfig) (fs : Bool) (w : Workflow) :
    (computePath cfg fs w).derivsAfter = none := rfl

/-! ## Claim C2 -/

/-- Configuration with auto skull-strip mode, no prior derivatives, and one
all-zero input volume, so the probe resolves to already skull-stripped. -/
def cfgC2 : AnatConfig :=
  { cfgBase with skull_strip_mode := SkullStripMode.auto }

/-- Counterexample to C2 as stated: at a concrete auto-mode configuration
whose probe resolves to already skull-stripped, construction does raise the
unsupported-configuration error (NotImplementedError), but at the moment of
the raise the graph already contains the outputnode and anat_reports_wf nodes
registered by the reportlets connection, so the error is not raised before
any node is added to the graph. -/
theorem C2_counterexample :
    raisedErr (init_anat_preproc_wf cfgC2) = some BuildErr.notImplemented ∧
    raiseNodes (init_anat_preproc_wf cfgC2) = some ["outputnode", "anat_reports_wf"] := by
  have hres : (init_anat_preproc_wf cfgC2).result =
      Except.error (BuildErr.notImplemented, reportletsWf) := by
    simp [init_anat_preproc_wf, cfgC2, cfgBase, computePath, computePathResult,
      imgZero, probe_single_zero]
  constructor <;> simp [raisedErr, raiseNodes, hres, reportletsWf_nodes]

/-- C2 amended: in auto mode without prior derivatives, when the probe
classifies the inputs as already skull-stripped, construction raises the
unsupported-configuration error and never returns a graph; the raise happens
after the reportlets connection has already registered outputnode and
anat_reports_wf in the in-progress graph, not before any node is added. -/
theorem C2_raise_after_reportlets (cfg : AnatConfig)
    (hm : cfg.skull_strip_mode = SkullStripMode.auto)
    (hd : cfg.existing_derivatives = none)
    (hs : _is_skull_stripped (cfg.t2w.map Image.vol) = true) :
    raisedErr (init_anat_preproc_wf cfg) = some BuildErr.notImplemented ∧
    raiseNodes (init_anat_preproc_wf cfg) = some ["outputnode", "anat_reports_wf"] ∧
    buildSucceeded (init_anat_preproc_wf cfg) = false := by
  have hres : (init_anat_preproc_wf cfg).result =
      Except.error (BuildErr.notImplemented, reportletsWf) := by
    simp [init_anat_preproc_wf, hd, computePath, computePathResult, hm, hs]
  refine ⟨?_, ?_, ?_⟩ <;>
    simp [raisedErr, raiseNodes, buildSucceeded, hres, reportletsWf_nodes]

/-- Witness for C2 at a concrete input with an all-zero-bordered volume. -/
theorem C2_raise_after_reportlets_witness :
    raisedErr (init_anat_preproc_wf cfgC2) = some BuildErr.notImplemented ∧
    raiseNodes (init_anat_preproc_wf cfgC2) = some ["outputnode", "anat_reports_wf"] ∧
    buildSucceeded (init_anat_preproc_wf cfgC2) = false :=
  C2_raise_after_reportlets cfgC2 rfl rfl
    (by simp [cfgC2, cfgBase, imgZero, probe_single_zero])

/-! ## Claim C3 -/

/-- Configuration supplying a derivative mapping that misses std_preproc. -/
def cfgC3 : AnatConfig :=
  { cfgBase with existing_derivatives := some derivsNoStd }

/-- Counterexample to C3 as stated: a supplied DerivativeSet that has the
template and t2w_preproc entries but is missing the requested std_preproc
field is accepted without any error and graph construction succeeds, so no
incomplete-derivative-set error exists for that input. -/
theorem C3_counterexample :
    buildSucceeded (init_anat_preproc_wf cfgC3) = true ∧
    raisedErr (init_anat_preproc_wf cfgC3) = none := by
  constructor <;> rfl

/-- C3 amended: on the cached branch, construction fails precisely when the
supplied mapping lacks the template key or, after the template pop, the
t2w_preproc key, and the only raised errors are the corresponding KeyErrors;
a mapping missing any other requested field is accepted, so the cache is not
all-or-nothing over the requested field set. -/
theorem C3_cache_error_on_two_keys (cfg : AnatConfig) (d : List (String × DVal)) :
    (buildSucceeded (init_anat_preproc_wf { cfg with existing_derivatives := some d }) = false ↔
      (d.lookup "template" = none ∨
       (d.eraseP (fun p => p.1 == "template")).lookup "t2w_preproc" = none)) ∧
    (raisedErr (init_anat_preproc_wf { cfg with existing_derivatives := some d }) = none ∨
     raisedErr (init_anat_preproc_wf { cfg with existing_derivatives := some d }) =
       some (BuildErr.keyError "template") ∨
     raisedErr (init_anat_preproc_wf { cfg with existing_derivatives := some d }) =
       some (BuildErr.keyError "t2w_preproc")) := by
  have hres : (init_anat_preproc_wf { cfg with existing_derivatives := some d }).result =
      cachedPathResult reportletsWf d := by
    simp [init_anat_preproc_wf, cachedPath]
  cases ht : d.lookup "template" with
  | none =>
      constructor
      · simp [buildSucceeded, hres, cachedPathResult, ht]
      · exact Or.inr (Or.inl (by simp [raisedErr, hres, cachedPathResult, ht]))
  | some tv =>
      cases hp : (d.eraseP (fun p => p.1 == "template")).lookup "t2w_preproc" with
      | none =>
          constructor
          · simp [buildSucceeded, hres, cachedPathResult, ht, hp]
          · exact Or.inr (Or.inr (by simp [raisedErr, hres, cachedPathResult, ht, hp]))
      | some pv =>
          constructor
          · simp [buildSucceeded, hres, cachedPathResult, ht, hp]
          · exact Or.inl (by simp [raisedErr, hres, cachedPathResult, ht, hp])

/-! ## Claim C6 -/

/-- Auto-mode configuration that also supplies a complete derivative set. -/
def cfgC6 : AnatConfig :=
  { cfgBase with skull_strip_mode := SkullStripMode.auto,
                 existing_derivatives := some derivsFull }

/-- Counterexample to C6 as stated: in auto mode with a supplied derivative
set the cached branch returns before the probe step, so the probe classifier
is not invoked although the mode is auto. -/
theorem C6_counterexample :
    cfgC6.skull_strip_mode = SkullStripMode.auto ∧
    (init_anat_preproc_wf cfgC6).probeRan = false :=
  ⟨rfl, rfl⟩

/-- C6 amended: the probe classifier is invoked exactly when the skull-strip
mode is auto and no prior derivative set is supplied; in particular skip and
force never invoke it, and auto does not invoke it when the cached branch
short-circuits construction. -/
theorem C6_probe_iff_auto_no_cache (cfg : AnatConfig) :
    (init_anat_preproc_wf cfg).probeRan = true ↔
      (cfg.skull_strip_mode = SkullStripMode.auto ∧ cfg.existing_derivatives = none) := by
  cases hd : cfg.existing_derivatives with
  | some d => simp [init_anat_preproc_wf, hd, cachedPath]
  | none =>
      cases hm : cfg.skull_strip_mode <;>
        simp [init_anat_preproc_wf, hd, computePath, hm]

/-! ## Claim C7 -/

/-- Configuration whose cached template key sequence is empty. -/
def cfgC7 : AnatConfig :=
  { cfgBase with existing_derivatives := some derivsEmptyTpl }

/-- Counterexample to C7 as stated: an empty template key sequence is
accepted silently, graph construction succeeds, and the empty iterable is
declared on templatesource; no empty-iterable error is raised. -/
theorem C7_counterexample :
    buildSucceeded (init_anat_preproc_wf cfgC7) = true ∧
    (builtWorkflow (init_anat_preproc_wf cfgC7)).map Workflow.iterables =
      some [("templatesource", "template", DVal.strList [])] := by
  constructor <;> rfl

/-- C7 amended: no empty-iterable check exists in either builder; the
anatomical builder accepts an empty template key sequence and succeeds (the
expansion silently has zero branches), while the rs_fmri normalization
builder raises a NameError on the undefined name split_desc for every
template list, empty or not, never an empty-iterable error. -/
theorem C7_no_empty_iterable_check :
    (∀ (debug : Bool) (omp : Nat) (tpls : List String),
        (init_anat_norm_wf debug omp tpls).result =
          Except.error (BuildErr.nameError "split_desc", emptyWorkflow)) ∧
    (∀ cfg : AnatConfig,
        buildSucceeded (init_anat_preproc_wf
          { cfg with existing_derivatives := some derivsEmptyTpl }) = true) := by
  exact ⟨fun _ _ _ => rfl, fun cfg => rfl⟩

/-! ## Claim C8 -/

/-- Configuration with a complete derivative set and force mode. -/
def cfgC8 : AnatConfig :=
  { cfgBase with existing_derivatives := some derivsFull }

/-- Counterexample to C8 as stated: graph construction mutates the supplied
DerivativeSet mapping, whose final state differs from the supplied one
because the template entry was popped. -/
theorem C8_counterexample :
    (init_anat_preproc_wf cfgC8).derivsAfter ≠ cfgC8.existing_derivatives := by
  decide

/-- C8 amended: construction is a pure function of the configuration and so
deterministic, and the only argument mutation is that, on the cached branch,
the template entry is popped from the supplied DerivativeSet mapping when
present; without a supplied mapping nothing is mutated. -/
theorem C8_only_template_pop_mutation (cfg : AnatConfig) :
    (init_anat_preproc_wf cfg).derivsAfter =
      Option.map popResidual cfg.existing_derivatives := by
  cases hd : cfg.existing_derivatives with
  | some d => simp [init_anat_preproc_wf, hd, cachedPath]
  | none => simp [init_anat_preproc_wf, hd, computePath]

/-! ## Claim C9 -/

/-- C9: the freesurfer argument is overwritten with False as the first
statement of the body (anatomical.py line 164), so the build outcome is
identical for any two values of the argument and the FreeSurfer-enabled
assembly path cannot influence the result. -/
theorem C9_freesurfer_has_no_effect (cfg : AnatConfig) (b1 b2 : Bool) :
    init_anat_preproc_wf { cfg with freesurfer := b1 } =
      init_anat_preproc_wf { cfg with freesurfer := b2 } := rfl

/-! ## Claim C4 -/

/-- C4: whenever the supplied derivative mapping provides the template entry
and the t2w_preproc entry (the accesses the cached branch performs),
construction succeeds and the resulting graph is a pure pass-through: its
nodes are exactly the identity, selection and reporting nodes, none of which
is a Processing-Unit compute node; every remaining mapping entry is bound
directly onto the outputnode together with the template value; the template
iterable on templatesource is the only declared iterable; and the reporting
collaborator receives its source file computed directly from the cached
t2w_preproc reference. -/
theorem C4_cached_passthrough (cfg : AnatConfig) (d : List (String × DVal)) (tv pv : DVal)
    (ht : d.lookup "template" = some tv)
    (hp : (d.eraseP (fun p => p.1 == "template")).lookup "t2w_preproc" = some pv) :
    buildSucceeded (init_anat_preproc_wf { cfg with existing_derivatives := some d }) = true ∧
    (builtWorkflow (init_anat_preproc_wf { cfg with existing_derivatives := some d })).map
        Workflow.nodes =
      some ["outputnode", "anat_reports_wf", "inputnode", "templatesource", "stdselect"] ∧
    (builtWorkflow (init_anat_preproc_wf { cfg with existing_derivatives := some d })).map
        (fun w => w.nodes.all (fun n => !isComputeNode n)) = some true ∧
    (builtWorkflow (init_anat_preproc_wf { cfg with existing_derivatives := some d })).map
        Workflow.outputInputs =
      some (("template", tv) :: d.eraseP (fun p => p.1 == "template")) ∧
    (builtWorkflow (init_anat_preproc_wf { cfg with existing_derivatives := some d })).map
        Workflow.iterables = some [("templatesource", "template", tv)] ∧
    (builtWorkflow (init_anat_preproc_wf { cfg with existing_derivatives := some d })).map
        Workflow.reportsSourceFile = some (some (fix_multi_source_name [pv])) := by
  have hres : (init_anat_preproc_wf { cfg with existing_derivatives := some d }).result =
      cachedPathResult reportletsWf d := by
    simp [init_anat_preproc_wf, cachedPath]
  refine ⟨?_, ?_, ?_, ?_, ?_, ?_⟩ <;>
    simp [buildSucceeded, builtWorkflow, hres, cachedPathResult, ht, hp, connect, addN,
      reportletsWf, emptyWorkflow, isComputeNode]

/-- Witness for C4 at the concrete complete derivative mapping. -/
theorem C4_cached_passthrough_witness :
    buildSucceeded (init_anat_preproc_wf
        { cfgBase with existing_derivatives := some derivsFull }) = true ∧
    (builtWorkflow (init_anat_preproc_wf
        { cfgBase with existing_derivatives := some derivsFull })).map
        Workflow.outputInputs =
      some [("template", DVal.strList ["RatT2w"]),
            ("t2w_preproc", DVal.str "sub-01_desc-preproc_T2w.nii.gz"),
            ("std_preproc", DVal.str "sub-01_space-RatT2w_T2w.nii.gz"),
            ("std_mask", DVal.str "sub-01_space-RatT2w_mask.nii.gz")] :=
  ⟨(C4_cached_passthrough cfgBase derivsFull (DVal.strList ["RatT2w"])
      (DVal.str "sub-01_desc-preproc_T2w.nii.gz") rfl rfl).1,
   (C4_cached_passthrough cfgBase derivsFull (DVal.strList ["RatT2w"])
      (DVal.str "sub-01_desc-preproc_T2w.nii.gz") rfl rfl).2.2.2.1⟩
